import Mathlib

/-!
Shallow embedding of `test-binary-server.py`, a static binary HTTP fixture
server.  The handler `BinaryTestHandler.do_GET` dispatches on the request
path by string equality and writes a fixed payload with fixed headers; the
embedding models a response as its status code, the headers explicitly set
by `send_header`, and the body bytes written to `wfile`.  Bytes are `Nat`
values (each payload byte is < 256); the ASCII payloads (PDF, HTML, the 404
body) are embedded as Lean strings and converted to bytes code-point-wise,
which agrees with the Python `bytes` literals since they are pure ASCII.
-/

namespace BinaryTestServer

/-- Byte values of an ASCII string, matching a Python `bytes` literal of the
same characters. -/
def strBytes (s : String) : List Nat :=
  s.data.map Char.toNat

/-- The minimal 1x1 red PNG from the `/image.png` branch (`png_data`). -/
def png_data : List Nat :=
  [0x89, 0x50, 0x4E, 0x47, 0x0D, 0x0A, 0x1A, 0x0A,
   0x00, 0x00, 0x00, 0x0D, 0x49, 0x48, 0x44, 0x52,
   0x00, 0x00, 0x00, 0x01, 0x00, 0x00, 0x00, 0x01,
   0x08, 0x02, 0x00, 0x00, 0x00, 0x90, 0x77, 0x53,
   0xDE, 0x00, 0x00, 0x00, 0x0C, 0x49, 0x44, 0x41,
   0x54, 0x08, 0xD7, 0x63, 0xF8, 0xCF, 0xC0, 0x00,
   0x00, 0x03, 0x01, 0x01, 0x00, 0x18, 0xDD, 0x8D,
   0xB4, 0x00, 0x00, 0x00, 0x00, 0x49, 0x45, 0x4E,
   0x44, 0xAE, 0x42, 0x60, 0x82]

/-- The minimal 1x1 baseline JPEG from the `/image.jpg` branch (`jpeg_data`). -/
def jpeg_data : List Nat :=
  [0xFF, 0xD8, 0xFF, 0xE0, 0x00, 0x10, 0x4A, 0x46,
   0x49, 0x46, 0x00, 0x01, 0x01, 0x00, 0x00, 0x01,
   0x00, 0x01, 0x00, 0x00, 0xFF, 0xDB, 0x00, 0x43,
   0x00, 0x08, 0x06, 0x06, 0x07, 0x06, 0x05, 0x08,
   0x07, 0x07, 0x07, 0x09, 0x09, 0x08, 0x0A, 0x0C,
   0x14, 0x0D, 0x0C, 0x0B, 0x0B, 0x0C, 0x19, 0x12,
   0x13, 0x0F, 0x14, 0x1D, 0x1A, 0x1F, 0x1E, 0x1D,
   0x1A, 0x1C, 0x1C, 0x20, 0x24, 0x2E, 0x27, 0x20,
   0x22, 0x2C, 0x23, 0x1C, 0x1C, 0x28, 0x37, 0x29,
   0x2C, 0x30, 0x31, 0x34, 0x34, 0x34, 0x1F, 0x27,
   0x39, 0x3D, 0x38, 0x32, 0x3C, 0x2E, 0x33, 0x34,
   0x32, 0xFF, 0xC0, 0x00, 0x0B, 0x08, 0x00, 0x01,
   0x00, 0x01, 0x01, 0x01, 0x11, 0x00, 0xFF, 0xC4,
   0x00, 0x14, 0x00, 0x01, 0x00, 0x00, 0x00, 0x00,
   0x00, 0x00, 0x00, 0x00, 0x00, 0x00, 0x00, 0x00,
   0x00, 0x00, 0x00, 0x03, 0xFF, 0xC4, 0x00, 0x14,
   0x10, 0x01, 0x00, 0x00, 0x00, 0x00, 0x00, 0x00,
   0x00, 0x00, 0x00, 0x00, 0x00, 0x00, 0x00, 0x00,
   0x00, 0x00, 0xFF, 0xDA, 0x00, 0x08, 0x01, 0x01,
   0x00, 0x00, 0x3F, 0x00, 0x3F, 0x00, 0xFF, 0xD9]

/-- The ASCII text of the `pdf_data` triple-quoted bytes literal in the
`/document.pdf` branch (newlines are literal LF characters, no trailing
newline). -/
def pdf_text : String :=
  "%PDF-1.4\n1 0 obj<</Type/Catalog/Pages 2 0 R>>endobj\n2 0 obj<</Type/Pages/Count 1/Kids[3 0 R]>>endobj\n3 0 obj<</Type/Page/MediaBox[0 0 612 792]/Parent 2 0 R/Resources<<>>>>endobj\nxref\n0 4\n0000000000 65535 f\n0000000009 00000 n\n0000000052 00000 n\n0000000101 00000 n\ntrailer<</Size 4/Root 1 0 R>>\nstartxref\n185\n%%EOF"

/-- Bytes of the `/document.pdf` payload. -/
def pdf_data : List Nat :=
  strBytes pdf_text

/-- The 22-byte empty ZIP from the `/archive.zip` branch (`zip_data`): an
End-Of-Central-Directory record only. -/
def zip_data : List Nat :=
  [0x50, 0x4B, 0x05, 0x06, 0x00, 0x00, 0x00, 0x00,
   0x00, 0x00, 0x00, 0x00, 0x00, 0x00, 0x00, 0x00,
   0x00, 0x00, 0x00, 0x00, 0x00, 0x00]

/-- The ASCII text of the `html` triple-quoted bytes literal in the `/`
branch (newlines are literal LF characters, no trailing newline). -/
def html_text : String :=
  "<!DOCTYPE html>\n<html>\n<head><title>Binary Test Server</title></head>\n<body>\n    <h1>Binary Content Test Server</h1>\n    <p>Test the following binary endpoints:</p>\n    <ul>\n        <li><a href=\"/image.png\">PNG Image</a> (image/png)</li>\n        <li><a href=\"/image.jpg\">JPEG Image</a> (image/jpeg)</li>\n        <li><a href=\"/document.pdf\">PDF Document</a> (application/pdf)</li>\n        <li><a href=\"/archive.zip\">ZIP Archive</a> (application/zip)</li>\n    </ul>\n    <p>Each endpoint will return a minimal valid binary file of that type.</p>\n</body>\n</html>"

/-- Bytes of the `/` index payload. -/
def html : List Nat :=
  strBytes html_text

/-- An HTTP response as assembled by one `do_GET` branch: the status code
passed to `send_response`, the headers set by the explicit `send_header`
calls (in order), and the bytes written to `wfile`.  (`send_response` also
emits library-generated `Server` and `Date` headers; those are not set by
the handler and are not modelled.) -/
structure HttpResponse where
  status : Nat
  headers : List (String × String)
  body : List Nat
deriving DecidableEq, Repr

/-- `BinaryTestHandler.do_GET`: string-equality dispatch on `self.path`,
branch for branch as in the source. -/
def do_GET (path : String) : HttpResponse :=
  if path = "/image.png" then
    { status := 200
      headers := [("Content-Type", "image/png"),
                  ("Content-Length", toString png_data.length)]
      body := png_data }
  else if path = "/image.jpg" then
    { status := 200
      headers := [("Content-Type", "image/jpeg"),
                  ("Content-Length", toString jpeg_data.length)]
      body := jpeg_data }
  else if path = "/document.pdf" then
    { status := 200
      headers := [("Content-Type", "application/pdf"),
                  ("Content-Length", toString pdf_data.length)]
      body := pdf_data }
  else if path = "/archive.zip" then
    { status := 200
      headers := [("Content-Type", "application/zip"),
                  ("Content-Length", toString zip_data.length)]
      body := zip_data }
  else if path = "/" then
    { status := 200
      headers := [("Content-Type", "text/html; charset=utf-8"),
                  ("Content-Length", toString html.length)]
      body := html }
  else
    { status := 404
      headers := [("Content-Type", "text/plain")]
      body := strBytes "404 Not Found" }

/-- Whether a response carries a header with the given field name. -/
def hasHeader (r : HttpResponse) (field : String) : Bool :=
  r.headers.any (fun h => h.1 == field)

/-- The value of the first header with the given field name, if any. -/
def headerValue (r : HttpResponse) (field : String) : Option String :=
  (r.headers.find? (fun h => h.1 == field)).map Prod.snd

/-- `BinaryTestHandler.log_message`: prints one line
`[<timestamp>] <format % args>` to standard output. -/
def log_message (timestamp message : String) : String :=
  "[" ++ timestamp ++ "] " ++ message

/-- `BaseHTTPRequestHandler.log_request`, which `send_response` invokes once
per response: it calls `log_message` with format `\"%s\" %s %s` applied to
the request line, the status code, and the size (here always `-`). -/
def log_request (timestamp requestline : String) (code : Nat) : String :=
  log_message timestamp ("\"" ++ requestline ++ "\" " ++ toString code ++ " -")

/-- Handling one GET request together with its log output: every branch of
`do_GET` calls `send_response` exactly once, which emits exactly one log
line through `log_request`/`log_message`. -/
def do_GET_logged (path timestamp requestline : String) :
    HttpResponse × List String :=
  (do_GET path, [log_request timestamp requestline (do_GET path).status])

/-- The server's sequential serve loop (plain `HTTPServer` handles requests
one at a time) applied to a list of request paths. -/
def serveAll (reqs : List String) : List HttpResponse :=
  reqs.map do_GET

set_option maxRecDepth 4000

/-- C1: for each of the four binary paths, `do_GET` responds with status 200,
the matching Content-Type (`image/png`, `image/jpeg`, `application/pdf`,
`application/zip`), a Content-Length header whose value is the decimal byte
length of the body, and a body equal to the stored payload bytes. -/
theorem routes_serve_stored_payloads :
    ((do_GET "/image.png").status = 200 ∧
     headerValue (do_GET "/image.png") "Content-Type" = some "image/png" ∧
     headerValue (do_GET "/image.png") "Content-Length" =
       some (toString (do_GET "/image.png").body.length) ∧
     (do_GET "/image.png").body = png_data) ∧
    ((do_GET "/image.jpg").status = 200 ∧
     headerValue (do_GET "/image.jpg") "Content-Type" = some "image/jpeg" ∧
     headerValue (do_GET "/image.jpg") "Content-Length" =
       some (toString (do_GET "/image.jpg").body.length) ∧
     (do_GET "/image.jpg").body = jpeg_data) ∧
    ((do_GET "/document.pdf").status = 200 ∧
     headerValue (do_GET "/document.pdf") "Content-Type" = some "application/pdf" ∧
     headerValue (do_GET "/document.pdf") "Content-Length" =
       some (toString (do_GET "/document.pdf").body.length) ∧
     (do_GET "/document.pdf").body = pdf_data) ∧
    ((do_GET "/archive.zip").status = 200 ∧
     headerValue (do_GET "/archive.zip") "Content-Type" = some "application/zip" ∧
     headerValue (do_GET "/archive.zip") "Content-Length" =
       some (toString (do_GET "/archive.zip").body.length) ∧
     (do_GET "/archive.zip").body = zip_data) := by
  decide

/-- C2: for every path outside the five-entry table, `do_GET` responds with
status 404, Content-Type `text/plain`, and a body equal to the 13 ASCII
bytes of `404 Not Found`. -/
theorem unmapped_path_404 (p : String)
    (h : p ∉ ["/", "/image.png", "/image.jpg", "/document.pdf", "/archive.zip"]) :
    (do_GET p).status = 404 ∧
    headerValue (do_GET p) "Content-Type" = some "text/plain" ∧
    (do_GET p).body = strBytes "404 Not Found" ∧
    (do_GET p).body.length = 13 := by
  simp only [List.mem_cons, List.not_mem_nil, or_false, not_or] at h
  obtain ⟨h0, h1, h2, h3, h4⟩ := h
  unfold do_GET
  rw [if_neg h1, if_neg h2, if_neg h3, if_neg h4, if_neg h0]
  decide

/-- Witness for C2 at the concrete unmapped path `/nonexistent`. -/
theorem unmapped_path_404_witness :
    ("/nonexistent" ∉
      ["/", "/image.png", "/image.jpg", "/document.pdf", "/archive.zip"]) ∧
    ((do_GET "/nonexistent").status = 404 ∧
     headerValue (do_GET "/nonexistent") "Content-Type" = some "text/plain" ∧
     (do_GET "/nonexistent").body = strBytes "404 Not Found" ∧
     (do_GET "/nonexistent").body.length = 13) :=
  ⟨by decide, unmapped_path_404 "/nonexistent" (by decide)⟩

/-- C3: the handler is deterministic — two GET requests with the same path
yield byte-for-byte identical bodies (each payload is a constant of the
embedding, never mutated between requests). -/
theorem handler_deterministic (p q : String) (h : p = q) :
    (do_GET p).body = (do_GET q).body := by
  rw [h]

/-- Witness for C3 at two requests for `/image.png`. -/
theorem handler_deterministic_witness :
    ("/image.png" : String) = "/image.png" ∧
    (do_GET "/image.png").body = (do_GET "/image.png").body :=
  ⟨rfl, handler_deterministic "/image.png" "/image.png" rfl⟩

/-- C4: the `/archive.zip` body is exactly 22 bytes and its first four bytes
are the End-Of-Central-Directory signature `50 4B 05 06`. -/
theorem zip_body_eocd :
    (do_GET "/archive.zip").body.length = 22 ∧
    (do_GET "/archive.zip").body.take 4 = [0x50, 0x4B, 0x05, 0x06] := by
  decide

/-- C5: the `/image.png` body is exactly 69 bytes, begins with the canonical
8-byte PNG signature, and its IHDR width and height fields (big-endian at
offsets 16 and 20) both equal 1, i.e. a 1x1 image. -/
theorem png_body_valid :
    (do_GET "/image.png").body.length = 69 ∧
    (do_GET "/image.png").body.take 8 =
      [0x89, 0x50, 0x4E, 0x47, 0x0D, 0x0A, 0x1A, 0x0A] ∧
    ((do_GET "/image.png").body.drop 16).take 4 = [0x00, 0x00, 0x00, 0x01] ∧
    ((do_GET "/image.png").body.drop 20).take 4 = [0x00, 0x00, 0x00, 0x01] := by
  decide

/-- C6: GET `/` responds with status 200, Content-Type
`text/html; charset=utf-8`, and a body containing the byte sequences of each
of `/image.png`, `/image.jpg`, `/document.pdf` and `/archive.zip`. -/
theorem index_page_links :
    (do_GET "/").status = 200 ∧
    headerValue (do_GET "/") "Content-Type" = some "text/html; charset=utf-8" ∧
    strBytes "/image.png" <:+: (do_GET "/").body ∧
    strBytes "/image.jpg" <:+: (do_GET "/").body ∧
    strBytes "/document.pdf" <:+: (do_GET "/").body ∧
    strBytes "/archive.zip" <:+: (do_GET "/").body := by
  decide

/-- C7: routing is string-equality dispatch over exactly five paths — a GET
request takes a 200 branch if and only if its path is character-for-character
equal to one of `/`, `/image.png`, `/image.jpg`, `/document.pdf`,
`/archive.zip` (so a query string or trailing slash matches nothing). -/
theorem routing_string_equality (p : String) :
    (do_GET p).status = 200 ↔
    (p = "/" ∨ p = "/image.png" ∨ p = "/image.jpg" ∨ p = "/document.pdf" ∨
     p = "/archive.zip") := by
  unfold do_GET
  split_ifs <;> simp_all

/-- C8: every handled request produces exactly one log line on standard
output, and that line contains the timestamp and the request line. -/
theorem request_logged_once (path ts rl : String) :
    ((do_GET_logged path ts rl).2).length = 1 ∧
    ∃ line, (do_GET_logged path ts rl).2 = [line] ∧
      ts.data <:+: line.data ∧ rl.data <:+: line.data := by
  refine ⟨rfl, log_request ts rl (do_GET path).status, rfl, ?_, ?_⟩
  · exact ⟨("[" : String).data,
      ("] \"" ++ rl ++ "\" " ++ toString (do_GET path).status ++ " -").data,
      by simp [log_request, log_message]⟩
  · exact ⟨("[" ++ ts ++ "] \"" : String).data,
      ("\" " ++ toString (do_GET path).status ++ " -" : String).data,
      by simp [log_request, log_message]⟩

/-- C9: no cross-request contamination in the serve loop — the response at
position `i` depends only on the request at position `i` (changing the other
requests changes nothing), and every produced response is exactly `do_GET` of
its own request, hence exactly that endpoint's payload. -/
theorem serve_noninterference :
    (∀ (r1 r2 : List String) (i : Nat),
      r1[i]? = r2[i]? → (serveAll r1)[i]? = (serveAll r2)[i]?) ∧
    (∀ (reqs : List String) (i : Nat) (r : HttpResponse),
      (serveAll reqs)[i]? = some r → ∃ p, reqs[i]? = some p ∧ r = do_GET p) := by
  constructor
  · intro r1 r2 i h
    simp [serveAll, List.getElem?_map, h]
  · intro reqs i r h
    simp [serveAll, List.getElem?_map] at h
    obtain ⟨p, hp, hr⟩ := h
    exact ⟨p, hp, hr.symm⟩

/-- Witness for C9: the first response is unchanged when the second request
is swapped out, and a concrete response is `do_GET` of its own request. -/
theorem serve_noninterference_witness :
    (serveAll ["/image.png", "/nonexistent"])[0]? =
      (serveAll ["/image.png", "/archive.zip"])[0]? ∧
    (∃ p, (["/archive.zip"] : List String)[0]? = some p ∧
      do_GET "/archive.zip" = do_GET p) :=
  ⟨serve_noninterference.1 ["/image.png", "/nonexistent"]
      ["/image.png", "/archive.zip"] 0 (by decide),
   serve_noninterference.2 ["/archive.zip"] 0 (do_GET "/archive.zip") rfl⟩

/-- C10: a Content-Length header is sent if and only if the status is 200,
and every 200 response's Content-Length value is the decimal byte length of
its body; the 404 branch sends no Content-Length header. -/
theorem content_length_iff_200 :
    (∀ p, hasHeader (do_GET p) "Content-Length" = true ↔
      (do_GET p).status = 200) ∧
    (∀ p, (do_GET p).status = 200 →
      headerValue (do_GET p) "Content-Length" =
        some (toString (do_GET p).body.length)) := by
  constructor
  · intro p
    unfold do_GET
    split_ifs <;> decide
  · intro p hp
    unfold do_GET at hp ⊢
    split_ifs at hp ⊢ <;> first | decide | simp_all

/-- Witness for C10: the index response carries a Content-Length equal to its
body length, and the 404 path has none. -/
theorem content_length_iff_200_witness :
    (do_GET "/").status = 200 ∧
    headerValue (do_GET "/") "Content-Length" =
      some (toString (do_GET "/").body.length) :=
  ⟨by decide, content_length_iff_200.2 "/" (by decide)⟩

end BinaryTestServer
